import Mathlib

/-!
Verification of the editing core of the Daw_AI piano-roll component
(`src/daw-ui/src/PianoRoll.tsx`), as a shallow embedding.

Conventions of the embedding:

* JavaScript numbers that occur here are always exact half-integers (beat
  positions, durations) or user-entered decimals, so they are modelled as `ℚ`;
  `bpm` (from `parseInt`) is modelled as `ℤ`.
* A `NoteEvent` is stored in the source as `[noteString, start, duration]`
  where `noteString` joins chord pitches with `+` and every handler first
  applies `split('+')`.  Pitch names of the grid never contain `+`, so the
  split/join round-trip is a bijection and the event is modelled directly as
  the list of its chord pitches together with start and duration.
* React `useState` values and `useRef` cells together form one record,
  `RollState`.  Every event handler is modelled as a function
  `RollState → ... → RollState` describing its net effect: reads of state
  variables inside a handler see the values captured by the render closure
  (the values at handler entry), `useRef` writes are immediate, and `set...`
  calls only take effect in the produced state.  This matters in `handleChat`,
  where the serialization built after `setTracks`/`setSynthConfigs` still
  reads the entry values of `tracks`, `synthConfigs`, `samples` and `bpm`.
* `JSON.stringify` of the pushed song body is modelled by the `SongData`
  structure with decidable equality; equal states serialize to equal strings,
  and the initial `lastSongData` ref value `''` (never a JSON body) is
  modelled as `none`.
* Network effects: `ensureSongIsCurrent` takes a flag saying whether the
  `fetch` succeeds and additionally returns the list of pushed bodies and
  whether the handler ran to completion.  When the `await fetch` throws, the
  two statements after it (snapshot update, clearing of `dirty`) do not run.
-/

namespace DawAI

/-- Track kind: `'Track'` (synthesized) or `'WavTrack'` (sample playback). -/
inductive TrackType
  | Track
  | WavTrack
deriving DecidableEq, Repr

/-- A note event: chord pitches (the `split('+')` of the stored note string),
start beat, and duration in beats. -/
structure NoteEvent where
  pitches : List String
  start : ℚ
  dur : ℚ
deriving DecidableEq, Repr

/-- The `SynthConfig` record of the source; the optional envelope/waveform
fields are `undefined` (here `none`) for the shared sample-playback config. -/
structure SynthConfig where
  id : String
  sample_rate : ℕ
  bpm : ℤ
  volume : Option ℚ := none
  waveform : Option String := none
  attack : Option ℚ := none
  decay : Option ℚ := none
  sustain : Option ℚ := none
  release : Option ℚ := none
deriving DecidableEq, Repr

/-- The `Track` record of the source.  The `wavFileObj : File` field (a browser
file handle, never serialized or read by the core) is omitted. -/
structure Track where
  name : String
  cfg_id : String
  events : List NoteEvent
  gain : ℚ
  type : TrackType
  wavFile : Option String := none
  fullPath : Option String := none
deriving DecidableEq, Repr

/-- A track as serialized by `buildTracksObj` (only the five pushed fields). -/
structure SerTrack where
  name : String
  cfg_id : String
  events : List NoteEvent
  gain : ℚ
  type : TrackType
deriving DecidableEq, Repr

/-- A synth config as serialized by `buildSynthConfigsObj`: either the full
shape with envelope/waveform fields or the minimal id/sample_rate/bpm shape. -/
inductive SerConfig
  | full (id : String) (sample_rate : ℕ) (bpm : ℤ) (volume : Option ℚ)
      (waveform : Option String) (attack decay sustain release : Option ℚ)
  | minimal (id : String) (sample_rate : ℕ) (bpm : ℤ)
deriving DecidableEq, Repr

/-- The JSON body pushed to `create_song`, up to the bijection between equal
structures and byte-identical `JSON.stringify` outputs. -/
structure SongData where
  samples : List (String × String)
  SynthConfigs : List SerConfig
  Tracks : List SerTrack
deriving DecidableEq, Repr

/-- The component state: the `useState` cells plus the `lastSongData`,
`wavSynthId` refs and the module-level `synthIdCounter`. -/
structure RollState where
  bpm : ℤ
  tracks : List Track
  synthConfigs : List SynthConfig
  selectedTrackIdx : ℤ
  dirty : Bool
  samples : List (String × String)
  dragStart : Option (String × ℚ)
  dragCurrent : Option (String × ℚ)
  lastSongData : Option SongData
  synthIdCounter : ℕ
  wavSynthId : String
deriving DecidableEq, Repr

/-- JavaScript truthiness of a `string | undefined` value:
`undefined` and the empty string are falsy. -/
def strTruthy : Option String → Bool
  | none => false
  | some s => !(s == "")

/-- `a || b || ''` on `string | undefined` values. -/
def strOrElse (a b : Option String) : String :=
  if strTruthy a then a.getD "" else if strTruthy b then b.getD "" else ""

/-- JavaScript object assignment `obj[k] = v` on a string-keyed record held as
an insertion-ordered association list: existing keys are updated in place,
new keys are appended. -/
def recordSet (r : List (String × String)) (k v : String) : List (String × String) :=
  if r.any (fun p => decide (p.1 = k)) then
    r.map (fun p => if p.1 = k then (k, v) else p)
  else r ++ [(k, v)]

/-- `getNextSynthId`, line 5: the id minted for counter value `n`. -/
def getNextSynthIdStr (n : ℕ) : String := "synth-" ++ toString n

/-- `selectedTrack`, line 77: `tracks[selectedTrackIdx]`, `undefined` when the
index is `-1` or out of range. -/
def selectedTrack (s : RollState) : Option Track :=
  if s.selectedTrackIdx < 0 then none else s.tracks.get? s.selectedTrackIdx.toNat

/-- `selectedSynthConfig`, lines 78-80. -/
def selectedSynthConfig (s : RollState) : Option SynthConfig :=
  (selectedTrack s).bind fun t => s.synthConfigs.find? (fun cfg => decide (cfg.id = t.cfg_id))

/-- `Math.min` on the exact beat numbers that occur here. -/
def jsMin (a b : ℚ) : ℚ := if a ≤ b then a else b

/-- `Math.max` on the exact beat numbers that occur here. -/
def jsMax (a b : ℚ) : ℚ := if a ≤ b then b else a

/-- The removal predicate of `handleNoteMouseUp`, line 122: the event contains
the anchor pitch and its start lies in `[lo, hi]`. -/
def coversStart (p : String) (lo hi : ℚ) (ev : NoteEvent) : Bool :=
  decide (p ∈ ev.pitches) && decide (lo ≤ ev.start) && decide (ev.start ≤ hi)

/-- The event-list effect of a drag release (`handleNoteMouseUp`, lines
116-124) with anchor `(p, a)` and current beat `b`. -/
def commitNote (p : String) (a b : ℚ) (events : List NoteEvent) : List NoteEvent :=
  let lo := jsMin a b
  let hi := jsMax a b
  let dur := hi - lo + 1/2
  events.filter (fun ev => !(coversStart p lo hi ev)) ++ [⟨[p], lo, dur⟩]

/-- The removal predicate of `handleNoteContextMenu`, line 136: the event
contains the pitch and the beat lies in `[start, start + duration)`. -/
def coversPoint (p : String) (beat : ℚ) (ev : NoteEvent) : Bool :=
  decide (p ∈ ev.pitches) && decide (ev.start ≤ beat) && decide (beat < ev.start + ev.dur)

/-- The event-list effect of a point removal (`handleNoteContextMenu`,
lines 133-137). -/
def removePoint (p : String) (beat : ℚ) (events : List NoteEvent) : List NoteEvent :=
  events.filter (fun ev => !(coversPoint p beat ev))

/-- `updateTrackEvents`, lines 96-103: replace the selected track's events and
set `dirty`. -/
def updateTrackEvents (s : RollState) (newEvents : List NoteEvent) : RollState :=
  { s with
    tracks := s.tracks.enum.map
      (fun q => if (q.1 : ℤ) = s.selectedTrackIdx then { q.2 with events := newEvents } else q.2)
    dirty := true }

/-- `handleNoteMouseDown`, lines 105-109 (`button = 0` is the primary button;
a call without an event object behaves like a primary press). -/
def handleNoteMouseDown (s : RollState) (pitch : String) (beat : ℚ) (button : ℕ) : RollState :=
  if button ≠ 0 then s
  else { s with dragStart := some (pitch, beat), dragCurrent := some (pitch, beat) }

/-- `handleNoteMouseEnter`, lines 110-112. -/
def handleNoteMouseEnter (s : RollState) (pitch : String) (beat : ℚ) : RollState :=
  if s.dragStart.isSome then { s with dragCurrent := some (pitch, beat) } else s

/-- `handleNoteMouseUp`, lines 113-129.  The `pitch`/`beat` arguments of the
release cell are ignored by the source body; with no selected track the
handler returns before clearing the drag refs. -/
def handleNoteMouseUp (s : RollState) (pitch : String) (beat : ℚ) : RollState :=
  match selectedTrack s with
  | none => s
  | some tr =>
    match s.dragStart, s.dragCurrent with
    | some ds, some dc =>
        { updateTrackEvents s (commitNote ds.1 ds.2 dc.2 tr.events) with
          dragStart := none, dragCurrent := none }
    | _, _ => { s with dragStart := none, dragCurrent := none }

/-- `handleNoteContextMenu`, lines 130-139. -/
def handleNoteContextMenu (s : RollState) (pitch : String) (beat : ℚ) : RollState :=
  match selectedTrack s with
  | none => s
  | some tr => updateTrackEvents s (removePoint pitch beat tr.events)

/-- `handleSelectTrack`, lines 155-157. -/
def handleSelectTrack (s : RollState) (idx : ℤ) : RollState :=
  { s with selectedTrackIdx := idx }

/-- `tracks.filter((_, i) => i !== idx)`, line 159. -/
def filterIdx {α : Type} (l : List α) (idx : ℕ) : List α :=
  (l.enum.filter (fun q => decide (q.1 ≠ idx))).map (fun q => q.2)

/-- `handleRemoveTrack`, lines 158-163. -/
def handleRemoveTrack (s : RollState) (idx : ℕ) : RollState :=
  { s with
    tracks := filterIdx s.tracks idx
    dirty := true
    selectedTrackIdx :=
      if s.selectedTrackIdx = (idx : ℤ) then -1
      else if (idx : ℤ) < s.selectedTrackIdx then s.selectedTrackIdx - 1
      else s.selectedTrackIdx }

/-- The `newTrack` form state consumed by `handleAddTrack`. -/
structure NewTrack where
  name : String
  type : TrackType
  wavFile : Option String := none
  fullPath : Option String := none
deriving DecidableEq, Repr

/-- `handleAddTrack`, lines 166-224, with `defaultSynthParams` of lines 43-50
inlined into the new config as in the source spread. -/
def handleAddTrack (s : RollState) (nt : NewTrack) : RollState :=
  if nt.name = "" then s
  else if nt.type = TrackType.Track then
    let synthId := getNextSynthIdStr s.synthIdCounter
    { s with
      synthIdCounter := s.synthIdCounter + 1
      synthConfigs := s.synthConfigs ++
        [{ id := synthId, sample_rate := 44100, bpm := s.bpm,
           volume := some (1/2), waveform := some "sine",
           attack := some (1/100), decay := some (1/20),
           sustain := some (4/5), release := some (1/20) }]
      tracks := s.tracks ++
        [{ name := nt.name, cfg_id := synthId, events := [], gain := 1,
           type := TrackType.Track }]
      selectedTrackIdx := (s.tracks.length : ℤ)
      dirty := true }
  else
    { s with
      tracks := s.tracks ++
        [{ name := nt.name, cfg_id := s.wavSynthId, events := [], gain := 1,
           type := TrackType.WavTrack, wavFile := nt.wavFile, fullPath := nt.fullPath }]
      selectedTrackIdx := (s.tracks.length : ℤ)
      synthConfigs :=
        if s.synthConfigs.any (fun cfg => decide (cfg.id = s.wavSynthId)) then s.synthConfigs
        else s.synthConfigs ++ [{ id := s.wavSynthId, sample_rate := 44100, bpm := s.bpm }]
      dirty := true }

/-- The `(param, value)` pairs the parameter box passes to
`handleSynthParamChange`. -/
inductive ParamChange
  | volume (v : ℚ)
  | waveform (v : String)
  | attack (v : ℚ)
  | decay (v : ℚ)
  | sustain (v : ℚ)
  | release (v : ℚ)
deriving DecidableEq, Repr

/-- `{ ...cfg, [param]: value }`, line 231. -/
def applyParamChange (cfg : SynthConfig) : ParamChange → SynthConfig
  | .volume v => { cfg with volume := some v }
  | .waveform v => { cfg with waveform := some v }
  | .attack v => { cfg with attack := some v }
  | .decay v => { cfg with decay := some v }
  | .sustain v => { cfg with sustain := some v }
  | .release v => { cfg with release := some v }

/-- `handleSynthParamChange`, lines 227-235. -/
def handleSynthParamChange (s : RollState) (c : ParamChange) : RollState :=
  match selectedSynthConfig s with
  | none => s
  | some sel =>
    { s with
      synthConfigs := s.synthConfigs.map
        (fun cfg => if cfg.id = sel.id then applyParamChange cfg c else cfg)
      dirty := true }

/-- `handleTrackGainChange`, lines 236-243 (sets `dirty` even when no track is
selected, since the `map` is a no-op then). -/
def handleTrackGainChange (s : RollState) (v : ℚ) : RollState :=
  { s with
    tracks := s.tracks.enum.map
      (fun q => if (q.1 : ℤ) = s.selectedTrackIdx then { q.2 with gain := v } else q.2)
    dirty := true }

/-- The BPM input `onChange`, line 376: set `bpm` and mark dirty. -/
def handleBpmChange (s : RollState) (v : ℤ) : RollState :=
  { s with bpm := v, dirty := true }

/-- The rebuild branch of `buildSamplesObj`, lines 248-253. -/
def samplesFromTracks (tracks : List Track) : List (String × String) :=
  tracks.foldl
    (fun acc t =>
      if t.type = TrackType.WavTrack ∧ (strTruthy t.fullPath ∨ strTruthy t.wavFile) then
        recordSet acc t.name (strOrElse t.fullPath t.wavFile)
      else acc)
    []

/-- `buildSamplesObj`, lines 246-255. -/
def buildSamplesObj (samples : List (String × String)) (tracks : List Track) :
    List (String × String) :=
  if samples.length > 0 then samples else samplesFromTracks tracks

/-- `buildSynthConfigsObj`, lines 256-278. -/
def buildSynthConfigsObj (bpm : ℤ) (synthConfigs : List SynthConfig) (tracks : List Track) :
    List SerConfig :=
  synthConfigs.map fun cfg =>
    if tracks.any (fun t => decide (t.cfg_id = cfg.id ∧ t.type = TrackType.Track)) then
      SerConfig.full cfg.id 44100 bpm cfg.volume cfg.waveform
        cfg.attack cfg.decay cfg.sustain cfg.release
    else
      SerConfig.minimal cfg.id 44100 bpm

/-- `buildTracksObj`, lines 279-287. -/
def buildTracksObj (tracks : List Track) : List SerTrack :=
  tracks.map fun t =>
    { name := t.name, cfg_id := t.cfg_id, events := t.events, gain := t.gain, type := t.type }

/-- The `JSON.stringify` body of lines 292-296 built from a state. -/
def serializeSong (s : RollState) : SongData :=
  { samples := buildSamplesObj s.samples s.tracks
    SynthConfigs := buildSynthConfigsObj s.bpm s.synthConfigs s.tracks
    Tracks := buildTracksObj s.tracks }

/-- `ensureSongIsCurrent`, lines 290-305.  `pushOk` says whether the `fetch`
succeeds; the result is the state after the handler, the list of bodies pushed,
and whether the handler completed without throwing.  When the `await fetch`
throws, lines 303-304 are not executed, so the state is unchanged. -/
def ensureSongIsCurrent (s : RollState) (pushOk : Bool) :
    RollState × List SongData × Bool :=
  let songData := serializeSong s
  if s.dirty = false ∧ some songData = s.lastSongData then (s, [], true)
  else if pushOk then
    ({ s with lastSongData := some songData, dirty := false }, [songData], true)
  else (s, [songData], false)

/-- `n` consecutive awaited calls of `ensureSongIsCurrent` with a healthy
network; returns the final state and all pushed bodies in order. -/
def ensureIter : ℕ → RollState → RollState × List SongData
  | 0, s => (s, [])
  | n + 1, s =>
    let r := ensureSongIsCurrent s true
    let r2 := ensureIter n r.1
    (r2.1, r.2.1 ++ r2.2)

/-- `handleChat`, lines 318-337, given the `{Tracks, SynthConfigs}` response
payload and a successful sync and exchange.  The serialization of lines
330-334 runs in the render closure of the invoking state: `tracks`,
`synthConfigs`, `samples` and `bpm` there are the values at handler entry, not
the response values just passed to `setTracks`/`setSynthConfigs`, so the
snapshot stored is the serialization of the pre-edit state. -/
def handleChat (s : RollState) (rTracks : List Track) (rConfigs : List SynthConfig) :
    RollState :=
  let s1 := (ensureSongIsCurrent s true).1
  { s1 with
    tracks := rTracks
    synthConfigs := rConfigs
    dirty := false
    lastSongData := some (serializeSong s)
    selectedTrackIdx := 0 }

/-- `handleRevert`, lines 348-356, given the `{Tracks, SynthConfigs, samples}`
response payload (`data.samples || {}` maps an absent field to the empty
record). -/
def handleRevert (s : RollState) (rTracks : List Track) (rConfigs : List SynthConfig)
    (rSamples : Option (List (String × String))) : RollState :=
  { s with
    tracks := rTracks
    synthConfigs := rConfigs
    samples := rSamples.getD []
    selectedTrackIdx := 0
    dirty := false }

/-- Every state-changing operation of the component, for statements that range
over all of them. -/
inductive Op
  | mouseDown (pitch : String) (beat : ℚ) (button : ℕ)
  | mouseEnter (pitch : String) (beat : ℚ)
  | mouseUp (pitch : String) (beat : ℚ)
  | contextMenu (pitch : String) (beat : ℚ)
  | selectTrack (idx : ℤ)
  | removeTrack (idx : ℕ)
  | addTrack (nt : NewTrack)
  | paramChange (c : ParamChange)
  | gainChange (v : ℚ)
  | bpmChange (v : ℤ)
  | ensureSong (pushOk : Bool)
  | chat (rTracks : List Track) (rConfigs : List SynthConfig)
  | revert (rTracks : List Track) (rConfigs : List SynthConfig)
      (rSamples : Option (List (String × String)))

/-- Dispatch an operation to its handler. -/
def applyOp (s : RollState) : Op → RollState
  | .mouseDown p b btn => handleNoteMouseDown s p b btn
  | .mouseEnter p b => handleNoteMouseEnter s p b
  | .mouseUp p b => handleNoteMouseUp s p b
  | .contextMenu p b => handleNoteContextMenu s p b
  | .selectTrack idx => handleSelectTrack s idx
  | .removeTrack idx => handleRemoveTrack s idx
  | .addTrack nt => handleAddTrack s nt
  | .paramChange c => handleSynthParamChange s c
  | .gainChange v => handleTrackGainChange s v
  | .bpmChange v => handleBpmChange s v
  | .ensureSong ok => (ensureSongIsCurrent s ok).1
  | .chat rT rC => handleChat s rT rC
  | .revert rT rC rS => handleRevert s rT rC rS

/-- The Score-mutating operations named by the sync claims, with the condition
under which the handler actually performs its mutation (and hence sets
`dirty`). -/
def effectiveMutation (s : RollState) : Op → Prop
  | .addTrack nt => nt.name ≠ ""
  | .removeTrack _ => True
  | .paramChange _ => (selectedSynthConfig s).isSome = true
  | .gainChange _ => True
  | .mouseUp _ _ =>
      (selectedTrack s).isSome = true ∧ s.dragStart.isSome = true ∧ s.dragCurrent.isSome = true
  | .contextMenu _ _ => (selectedTrack s).isSome = true
  | _ => False

/-- The component state after mount: `useState` initial values, counter 1
consumed once by the `wavSynthId` ref. -/
def initialState : RollState :=
  { bpm := 120, tracks := [], synthConfigs := [], selectedTrackIdx := -1,
    dirty := false, samples := [], dragStart := none, dragCurrent := none,
    lastSongData := none, synthIdCounter := 2, wavSynthId := "synth-1" }

/-! ## Concrete fixtures used by witnesses and counterexamples -/

/-- A synth track holding one committed note on C4 spanning `[0, 3/2)`. -/
def trA : Track :=
  { name := "lead", cfg_id := "synth-2", events := [⟨["C4"], 0, 3/2⟩],
    gain := 1, type := TrackType.Track }

/-- A state in the middle of a drag on pitch lane C4 with anchor beat 1 and
current cell `("E4", 2)`, over the single selected track `trA`. -/
def sDrag : RollState :=
  { initialState with
    tracks := [trA]
    selectedTrackIdx := 0
    dragStart := some ("C4", 1)
    dragCurrent := some ("E4", 2) }

/-- A synth track with no events, referencing config `synth-2`. -/
def trB : Track :=
  { name := "lead", cfg_id := "synth-2", events := [], gain := 1,
    type := TrackType.Track }

/-- The config `synth-2` with the default envelope parameters. -/
def cfgB : SynthConfig :=
  { id := "synth-2", sample_rate := 44100, bpm := 120,
    volume := some (1/2), waveform := some "sine", attack := some (1/100),
    decay := some (1/20), sustain := some (4/5), release := some (1/20) }

/-- A sample-playback track that references the same config `synth-2`. -/
def tWav : Track :=
  { name := "drums", cfg_id := "synth-2", events := [], gain := 1,
    type := TrackType.WavTrack, wavFile := some "kick.wav",
    fullPath := some "/tmp/kick.wav" }

/-- A track whose `cfg_id` resolves to no config in an accompanying response. -/
def trGhost : Track :=
  { name := "ghost", cfg_id := "no-such-cfg", events := [], gain := 1,
    type := TrackType.Track }

/-! ## Helper lemmas -/

theorem jsMin_eq_min (a b : ℚ) : jsMin a b = min a b := by
  rw [jsMin, min_def]

theorem jsMax_eq_max (a b : ℚ) : jsMax a b = max a b := by
  rw [jsMax, max_def]

theorem coversStart_eq_true_iff {p : String} {lo hi : ℚ} {ev : NoteEvent} :
    coversStart p lo hi ev = true ↔ p ∈ ev.pitches ∧ lo ≤ ev.start ∧ ev.start ≤ hi := by
  simp [coversStart, and_assoc]

theorem coversPoint_eq_true_iff {p : String} {beat : ℚ} {ev : NoteEvent} :
    coversPoint p beat ev = true ↔
      p ∈ ev.pitches ∧ ev.start ≤ beat ∧ beat < ev.start + ev.dur := by
  simp [coversPoint, and_assoc]

theorem get?_enum_map {α β : Type} (l : List α) (f : ℕ × α → β) (i : ℕ) :
    (l.enum.map f).get? i = (l.get? i).map fun a => f (i, a) := by
  rw [List.get?_map, List.get?_enum]
  cases l.get? i <;> rfl

theorem selectedTrack_updateTrackEvents (s : RollState) (evs : List NoteEvent) :
    selectedTrack (updateTrackEvents s evs) =
      (selectedTrack s).map fun t => { t with events := evs } := by
  unfold selectedTrack updateTrackEvents
  by_cases hneg : s.selectedTrackIdx < 0
  · simp [hneg]
  · simp only [hneg, if_neg]
    rw [get?_enum_map]
    cases h : s.tracks.get? s.selectedTrackIdx.toNat with
    | none => rfl
    | some t =>
      have : ((s.selectedTrackIdx.toNat : ℤ)) = s.selectedTrackIdx := by omega
      simp [this]

/-! ## Claim C1: the per-pitch overlap invariant -/

/-- Two note events share at least one pitch. -/
def SharedPitch (e1 e2 : NoteEvent) : Prop :=
  ∃ p ∈ e1.pitches, p ∈ e2.pitches

/-- The half-open intervals of two events intersect. -/
def IntervalsOverlap (e1 e2 : NoteEvent) : Prop :=
  e1.start < e2.start + e2.dur ∧ e2.start < e1.start + e1.dur

/-- No two events sharing a pitch begin at the same beat. -/
def DistinctStarts (evs : List NoteEvent) : Prop :=
  evs.Pairwise fun e1 e2 => SharedPitch e1 e2 → e1.start ≠ e2.start

/-- The event lists of one track reachable from the empty list by commit
(drag-release) and point-removal operations. -/
inductive ReachableEvents : List NoteEvent → Prop
  | empty : ReachableEvents []
  | commit (p : String) (a b : ℚ) {evs : List NoteEvent} :
      ReachableEvents evs → ReachableEvents (commitNote p a b evs)
  | point (p : String) (beat : ℚ) {evs : List NoteEvent} :
      ReachableEvents evs → ReachableEvents (removePoint p beat evs)

/-- Claim C1 counterexample.  Starting from an empty event list, committing a
drag on C4 from beat 0 to beat 1 and then committing a single-cell drag on C4
at beat 1 leaves two events on pitch C4 whose intervals `[0, 3/2)` and
`[1, 3/2)` overlap: the second commit only removes events whose start lies in
the dragged range, so the first note survives. -/
theorem C1_counterexample_overlap :
    commitNote "C4" 1 1 (commitNote "C4" 0 1 []) =
      [⟨["C4"], 0, 3/2⟩, ⟨["C4"], 1, 1/2⟩] ∧
    SharedPitch ⟨["C4"], 0, 3/2⟩ ⟨["C4"], 1, 1/2⟩ ∧
    IntervalsOverlap ⟨["C4"], 0, 3/2⟩ ⟨["C4"], 1, 1/2⟩ := by
  refine ⟨?_, ⟨"C4", by norm_num⟩, by norm_num [IntervalsOverlap]⟩
  simp only [commitNote, jsMin, jsMax, coversStart]
  norm_num [List.filter]

/-- Claim C1, amended.  For every sequence of commit and point-removal
operations applied to one track starting from an empty event list, no two
events that share a pitch have equal start positions (their intervals can
still overlap, as the counterexample shows). -/
theorem C1_distinct_starts (evs : List NoteEvent) (h : ReachableEvents evs) :
    DistinctStarts evs := by
  induction h with
  | empty => exact List.Pairwise.nil
  | point p beat _ ih =>
    exact List.Pairwise.sublist (List.filter_sublist _) ih
  | commit p a b _ ih =>
    unfold commitNote
    rw [DistinctStarts, List.pairwise_append]
    refine ⟨List.Pairwise.sublist (List.filter_sublist _) ih,
      List.pairwise_singleton _ _, ?_⟩
    intro x hx y hy hshared
    rw [List.mem_singleton] at hy
    subst hy
    rw [List.mem_filter] at hx
    have hcov : ¬ (p ∈ x.pitches ∧ jsMin a b ≤ x.start ∧ x.start ≤ jsMax a b) := by
      have := hx.2
      rw [Bool.not_eq_eq_eq_not, Bool.not_true] at this
      rw [← coversStart_eq_true_iff]
      simp [this]
    have hpx : p ∈ x.pitches := by
      obtain ⟨q, hq1, hq2⟩ := hshared
      simp only [NoteEvent.pitches, List.mem_singleton] at hq2
      rwa [hq2] at hq1
    intro hstart
    simp only [NoteEvent.start] at hstart
    exact hcov ⟨hpx, hstart.ge, by
      rw [hstart, jsMin_eq_min, jsMax_eq_max]; exact min_le_max⟩

/-- Witness for Claim C1, amended: the two-commit sequence of the
counterexample satisfies the distinct-starts invariant. -/
theorem C1_distinct_starts_witness :
    DistinctStarts (commitNote "C4" 1 1 (commitNote "C4" 0 1 [])) :=
  C1_distinct_starts _
    (ReachableEvents.commit "C4" 1 1 (ReachableEvents.commit "C4" 0 1 ReachableEvents.empty))

/-! ## Claim C2: effect of releasing a drag -/

/-- What a release with anchor `(p, a)` and current beat `b` over selected
track `tr` does, per the source: with `lo = min a b` and `hi = max a b`, the
drag state is cleared and the selected track's events become the old events
minus exactly those containing `p` with start in `[lo, hi]`, followed by the
single new event `(p, lo, hi - lo + 1/2)`. -/
def CommitResult (tr : Track) (p : String) (a b : ℚ) (s' : RollState) : Prop :=
  s'.dragStart = none ∧ s'.dragCurrent = none ∧
  ∃ kept : List NoteEvent,
    selectedTrack s' =
      some { tr with events := kept ++ [⟨[p], min a b, max a b - min a b + 1/2⟩] } ∧
    ∀ ev, ev ∈ kept ↔
      ev ∈ tr.events ∧ ¬(p ∈ ev.pitches ∧ min a b ≤ ev.start ∧ ev.start ≤ max a b)

/-- Claim C2 counterexample.  With trA's note on C4 spanning `[0, 3/2)`
selected and a drag with anchor `("C4", 1)`, current `("E4", 2)`, the release
commits over `[lo, hi] = [1, 2]`.  The existing note's interval `[0, 3/2)`
intersects `[1, 2]`, yet the note is not removed (its start `0` is outside the
range), so the claimed remove-every-intersecting-event behaviour fails. -/
theorem C2_counterexample_intersecting_survives :
    (handleNoteMouseUp sDrag "E4" 2).tracks =
      [{ trA with events := [⟨["C4"], 0, 3/2⟩, ⟨["C4"], 1, 3/2⟩] }] ∧
    "C4" ∈ (⟨["C4"], 0, 3/2⟩ : NoteEvent).pitches ∧
    (0 : ℚ) ≤ 2 ∧ (1 : ℚ) < 0 + 3/2 := by
  refine ⟨?_, by norm_num, by norm_num, by norm_num⟩
  simp only [handleNoteMouseUp, selectedTrack, sDrag, initialState, trA,
    updateTrackEvents, commitNote, jsMin, jsMax, coversStart, List.enum]
  norm_num [List.filter, List.enumFrom]

/-- Claim C2, amended.  Releasing a drag with anchor `(p, a)` and current beat
`b` over a selected track clears the drag state, removes exactly the events
containing pitch `p` whose start lies in `[min a b, max a b]` (not all whose
interval intersects it), and appends the single event
`(p, min a b, max a b - min a b + 1/2)`; the inserted pitch is the anchor's
whatever cell the pointer is released on. -/
theorem C2_commit_start_range (s : RollState) (tr : Track) (p pc : String) (a b : ℚ)
    (pitch : String) (beat : ℚ)
    (hsel : selectedTrack s = some tr)
    (hds : s.dragStart = some (p, a)) (hdc : s.dragCurrent = some (pc, b)) :
    CommitResult tr p a b (handleNoteMouseUp s pitch beat) := by
  unfold handleNoteMouseUp
  rw [hsel, hds, hdc]
  refine ⟨rfl, rfl,
    tr.events.filter (fun ev => !(coversStart p (jsMin a b) (jsMax a b) ev)), ?_, ?_⟩
  · have heq : selectedTrack
        { updateTrackEvents s (commitNote p a b tr.events) with
          dragStart := none, dragCurrent := none } =
        selectedTrack (updateTrackEvents s (commitNote p a b tr.events)) := rfl
    rw [heq, selectedTrack_updateTrackEvents, hsel]
    simp only [commitNote, jsMin_eq_min, jsMax_eq_max]
    rfl
  · intro ev
    rw [List.mem_filter, Bool.not_eq_eq_eq_not, Bool.not_true,
      ← Bool.not_eq_true, coversStart_eq_true_iff, jsMin_eq_min, jsMax_eq_max]

/-- Witness for Claim C2, amended: the release of the drag held in `sDrag`,
performed on an unrelated cell `("F4", 5)`, satisfies `CommitResult` for the
anchor pitch C4. -/
theorem C2_commit_start_range_witness :
    selectedTrack sDrag = some trA ∧
    sDrag.dragStart = some ("C4", 1) ∧
    sDrag.dragCurrent = some ("E4", 2) ∧
    CommitResult trA "C4" 1 2 (handleNoteMouseUp sDrag "F4" 5) :=
  ⟨rfl, rfl, rfl, C2_commit_start_range sDrag trA "C4" "E4" 1 2 "F4" 5 rfl rfl rfl⟩

/-! ## Claim C8: point removal -/

/-- What the secondary action on `(pitch, beat)` does, per the claim: the
selected track's events become exactly the old events minus those covering
the cell, nothing is inserted, an uncovered cell is a no-op, and the drag
state is untouched. -/
def PointRemovalResult (s : RollState) (tr : Track) (pitch : String) (beat : ℚ)
    (s' : RollState) : Prop :=
  ∃ evs' : List NoteEvent,
    selectedTrack s' = some { tr with events := evs' } ∧
    (∀ ev, ev ∈ evs' ↔
      ev ∈ tr.events ∧ ¬(pitch ∈ ev.pitches ∧ ev.start ≤ beat ∧ beat < ev.start + ev.dur)) ∧
    ((∀ ev ∈ tr.events,
        ¬(pitch ∈ ev.pitches ∧ ev.start ≤ beat ∧ beat < ev.start + ev.dur)) →
      evs' = tr.events) ∧
    s'.dragStart = s.dragStart ∧ s'.dragCurrent = s.dragCurrent

/-- Claim C8.  Point removal at `(pitch, beat)` on a selected track removes
exactly the events that contain the pitch and cover the beat, inserts
nothing, is a no-op when no event covers the cell, and neither requires nor
modifies the drag state. -/
theorem C8_point_removal (s : RollState) (tr : Track) (pitch : String) (beat : ℚ)
    (hsel : selectedTrack s = some tr) :
    PointRemovalResult s tr pitch beat (handleNoteContextMenu s pitch beat) := by
  unfold handleNoteContextMenu
  rw [hsel]
  refine ⟨tr.events.filter (fun ev => !(coversPoint pitch beat ev)), ?_, ?_, ?_, rfl, rfl⟩
  · rw [selectedTrack_updateTrackEvents, hsel]
    rfl
  · intro ev
    rw [List.mem_filter, Bool.not_eq_eq_eq_not, Bool.not_true,
      ← Bool.not_eq_true, coversPoint_eq_true_iff]
  · intro hnone
    rw [List.filter_eq_self]
    intro ev hev
    rw [Bool.not_eq_eq_eq_not, Bool.not_true, ← Bool.not_eq_true, coversPoint_eq_true_iff]
    exact hnone ev hev

/-- Witness for Claim C8: point removal at `("C4", 1/2)` on the state holding
`trA` (whose note spans `[0, 3/2)`) satisfies `PointRemovalResult`. -/
theorem C8_point_removal_witness :
    selectedTrack sDrag = some trA ∧
    PointRemovalResult sDrag trA "C4" (1/2) (handleNoteContextMenu sDrag "C4" (1/2)) :=
  ⟨rfl, C8_point_removal sDrag trA "C4" (1/2) rfl⟩

/-! ## Claim C9: removing a track -/

theorem filterIdxFrom_eq {α : Type} (l : List α) : ∀ (n idx : ℕ),
    ((List.enumFrom n l).filter (fun q => decide (q.1 ≠ idx))).map (fun q => q.2) =
      if n ≤ idx then l.take (idx - n) ++ l.drop (idx - n + 1) else l := by
  induction l with
  | nil => intro n idx; simp
  | cons a l ih =>
    intro n idx
    rw [List.enumFrom_cons, List.filter_cons]
    by_cases hn : n = idx
    · subst hn
      rw [if_neg (by simp)]
      rw [ih (n + 1) n, if_neg (by omega : ¬ n + 1 ≤ n), if_pos le_rfl, Nat.sub_self,
        List.take_zero, List.nil_append, List.drop_succ_cons, List.drop_zero]
    · rw [if_pos (by simp [hn]), List.map_cons, ih (n + 1) idx]
      by_cases hlt : n < idx
      · rw [if_pos (by omega : n + 1 ≤ idx), if_pos (le_of_lt hlt)]
        have h1 : idx - n = (idx - (n + 1)) + 1 := by omega
        rw [h1, List.take_succ_cons, List.drop_succ_cons]
        have h2 : idx - (n + 1) + 1 = idx - n := by omega
        rw [h2]
        simp
      · rw [if_neg (by omega : ¬ n + 1 ≤ idx), if_neg (by omega : ¬ n ≤ idx)]

theorem filterIdx_eq_take_append_drop {α : Type} (l : List α) (idx : ℕ) :
    filterIdx l idx = l.take idx ++ l.drop (idx + 1) := by
  rw [filterIdx]
  have h := filterIdxFrom_eq l 0 idx
  rw [if_pos (Nat.zero_le idx), Nat.sub_zero] at h
  exact h

/-- Claim C9.  `handleRemoveTrack idx` removes exactly the track at index
`idx`, keeping the order of the rest; if the removed index was selected the
selection is cleared to `-1`; if the removed index is before the selection the
selected index decreases by one and still denotes the same track; otherwise
the selection is unchanged. -/
theorem C9_remove_track (s : RollState) (idx : ℕ) (h : idx < s.tracks.length) :
    (handleRemoveTrack s idx).tracks = s.tracks.take idx ++ s.tracks.drop (idx + 1) ∧
    (s.selectedTrackIdx = (idx : ℤ) → (handleRemoveTrack s idx).selectedTrackIdx = -1) ∧
    ((idx : ℤ) < s.selectedTrackIdx →
      (handleRemoveTrack s idx).selectedTrackIdx = s.selectedTrackIdx - 1 ∧
      (handleRemoveTrack s idx).tracks.get? (s.selectedTrackIdx - 1).toNat =
        s.tracks.get? s.selectedTrackIdx.toNat) ∧
    (s.selectedTrackIdx < (idx : ℤ) → (handleRemoveTrack s idx).selectedTrackIdx = s.selectedTrackIdx) := by
  unfold handleRemoveTrack
  refine ⟨filterIdx_eq_take_append_drop s.tracks idx, ?_, ?_, ?_⟩
  · intro hsel
    simp [hsel]
  · intro hgt
    constructor
    · rw [if_neg (by omega), if_pos hgt]
    · rw [filterIdx_eq_take_append_drop]
      have hk : (s.selectedTrackIdx - 1).toNat = s.selectedTrackIdx.toNat - 1 := by omega
      have hik : idx < s.selectedTrackIdx.toNat := by omega
      rw [hk, List.get?_eq_getElem?, List.get?_eq_getElem?,
        List.getElem?_append_right (by simp [List.length_take]; omega),
        List.getElem?_drop]
      congr 1
      simp [List.length_take]
      omega
  · intro hlt
    rw [if_neg (by omega), if_neg (by omega)]

/-- Witness for Claim C9: removing index 1 from a three-track state whose
selection is index 2 keeps tracks 0 and 2, decrements the selection to 1, and
the selection still denotes the former track 2. -/
theorem C9_remove_track_witness :
    1 < ({ initialState with tracks := [trB, tWav, trGhost], selectedTrackIdx := 2 } :
        RollState).tracks.length ∧
    ((handleRemoveTrack
        { initialState with tracks := [trB, tWav, trGhost], selectedTrackIdx := 2 } 1).tracks =
      [trB, trGhost] ∧
    (handleRemoveTrack
        { initialState with tracks := [trB, tWav, trGhost], selectedTrackIdx := 2 } 1).selectedTrackIdx = 1) := by
  refine ⟨by decide, ?_, ?_⟩
  · have h := (C9_remove_track
      { initialState with tracks := [trB, tWav, trGhost], selectedTrackIdx := 2 } 1 (by decide)).1
    rw [h]
    rfl
  · exact ((C9_remove_track
      { initialState with tracks := [trB, tWav, trGhost], selectedTrackIdx := 2 } 1 (by decide)).2.2.1
      (by decide)).1

/-! ## Sync lemmas -/

theorem ensureIter_succ (n : ℕ) (s : RollState) :
    ensureIter (n + 1) s =
      ((ensureIter n (ensureSongIsCurrent s true).1).1,
        (ensureSongIsCurrent s true).2.1 ++ (ensureIter n (ensureSongIsCurrent s true).1).2) :=
  rfl

theorem ensure_skip (s : RollState) (ok : Bool)
    (h1 : s.dirty = false) (h2 : s.lastSongData = some (serializeSong s)) :
    ensureSongIsCurrent s ok = (s, [], true) := by
  simp only [ensureSongIsCurrent]
  rw [if_pos ⟨h1, h2.symm⟩]

theorem ensure_dirty_push (s : RollState) (h : s.dirty = true) :
    ensureSongIsCurrent s true =
      ({ s with lastSongData := some (serializeSong s), dirty := false },
        [serializeSong s], true) := by
  simp only [ensureSongIsCurrent]
  rw [if_neg (by simp [h])]
  rfl

theorem serializeSong_ensure (s : RollState) (ok : Bool) :
    serializeSong (ensureSongIsCurrent s ok).1 = serializeSong s := by
  by_cases hc : (s.dirty = false ∧ some (serializeSong s) = s.lastSongData)
  · rw [ensure_skip s ok hc.1 hc.2.symm]
  · simp only [ensureSongIsCurrent]
    rw [if_neg hc]
    cases ok <;> rfl

theorem ensure_result_clean (s : RollState) :
    (ensureSongIsCurrent s true).1.dirty = false ∧
    (ensureSongIsCurrent s true).1.lastSongData =
      some (serializeSong (ensureSongIsCurrent s true).1) := by
  rw [serializeSong_ensure]
  by_cases hc : (s.dirty = false ∧ some (serializeSong s) = s.lastSongData)
  · rw [ensure_skip s true hc.1 hc.2.symm]
    exact ⟨hc.1, hc.2.symm⟩
  · simp only [ensureSongIsCurrent]
    rw [if_neg hc]
    exact ⟨rfl, rfl⟩

theorem ensureIter_clean (n : ℕ) (s : RollState)
    (h1 : s.dirty = false) (h2 : s.lastSongData = some (serializeSong s)) :
    ensureIter n s = (s, []) := by
  induction n with
  | zero => rfl
  | succ m ih =>
    rw [ensureIter_succ, ensure_skip s true h1 h2]
    show ((ensureIter m s).1, [] ++ (ensureIter m s).2) = (s, [])
    rw [ih]
    rfl

/-! ## Claim C3: `ensureSongIsCurrent` pushes exactly once per mutation -/

theorem effectiveMutation_dirty (s : RollState) (op : Op)
    (h : effectiveMutation s op) : (applyOp s op).dirty = true := by
  cases op with
  | mouseDown p b btn => exact absurd h (by simp [effectiveMutation])
  | mouseEnter p b => exact absurd h (by simp [effectiveMutation])
  | mouseUp p b =>
    obtain ⟨h1, h2, h3⟩ := h
    obtain ⟨tr, htr⟩ := Option.isSome_iff_exists.mp h1
    obtain ⟨ds, hds⟩ := Option.isSome_iff_exists.mp h2
    obtain ⟨dc, hdc⟩ := Option.isSome_iff_exists.mp h3
    show (handleNoteMouseUp s p b).dirty = true
    unfold handleNoteMouseUp
    rw [htr, hds, hdc]
    rfl
  | contextMenu p b =>
    obtain ⟨tr, htr⟩ := Option.isSome_iff_exists.mp h
    show (handleNoteContextMenu s p b).dirty = true
    unfold handleNoteContextMenu
    rw [htr]
    rfl
  | selectTrack idx => exact absurd h (by simp [effectiveMutation])
  | removeTrack idx => rfl
  | addTrack nt =>
    show (handleAddTrack s nt).dirty = true
    unfold handleAddTrack
    rw [if_neg h]
    split <;> rfl
  | paramChange c =>
    obtain ⟨cfg, hcfg⟩ := Option.isSome_iff_exists.mp h
    show (handleSynthParamChange s c).dirty = true
    unfold handleSynthParamChange
    rw [hcfg]
  | gainChange v => rfl
  | bpmChange v => exact absurd h (by simp [effectiveMutation])
  | ensureSong ok => exact absurd h (by simp [effectiveMutation])
  | chat rT rC => exact absurd h (by simp [effectiveMutation])
  | revert rT rC rS => exact absurd h (by simp [effectiveMutation])

/-- Claim C3.  Calling `ensureSongIsCurrent` twice in a row with no
intervening mutation makes the second call push nothing; and after any single
effective mutation (add track, remove track, synth-param change, gain change,
note commit or point removal), any positive number of consecutive calls
pushes exactly one body — the serialization of the mutated state — after
which the snapshot equals that just-sent body and `dirty` is clear. -/
theorem C3_single_push_per_mutation (s : RollState) (op : Op)
    (h : effectiveMutation s op) (n : ℕ) (hn : 1 ≤ n) :
    (∀ t : RollState, (ensureSongIsCurrent (ensureSongIsCurrent t true).1 true).2.1 = []) ∧
    (ensureIter n (applyOp s op)).2 = [serializeSong (applyOp s op)] ∧
    (ensureIter n (applyOp s op)).1.dirty = false ∧
    (ensureIter n (applyOp s op)).1.lastSongData = some (serializeSong (applyOp s op)) := by
  have hsecond : ∀ t : RollState,
      (ensureSongIsCurrent (ensureSongIsCurrent t true).1 true).2.1 = [] := by
    intro t
    obtain ⟨hc1, hc2⟩ := ensure_result_clean t
    rw [ensure_skip _ true hc1 hc2]
  have hd := effectiveMutation_dirty s op h
  obtain ⟨m, rfl⟩ : ∃ m, n = m + 1 := ⟨n - 1, by omega⟩
  have hstep :
      ensureIter (m + 1) (applyOp s op) =
        ({ applyOp s op with
            lastSongData := some (serializeSong (applyOp s op)), dirty := false },
          [serializeSong (applyOp s op)]) := by
    rw [ensureIter_succ, ensure_dirty_push _ hd]
    have hclean := ensureIter_clean m
      { applyOp s op with
        lastSongData := some (serializeSong (applyOp s op)), dirty := false }
      rfl rfl
    show ((ensureIter m { applyOp s op with
        lastSongData := some (serializeSong (applyOp s op)), dirty := false }).1,
      [serializeSong (applyOp s op)] ++ (ensureIter m { applyOp s op with
        lastSongData := some (serializeSong (applyOp s op)), dirty := false }).2) = _
    rw [hclean]
    rfl
  refine ⟨hsecond, ?_, ?_, ?_⟩ <;> rw [hstep] <;> rfl

/-- Witness for Claim C3: a gain change on the initial state followed by one
`ensureSongIsCurrent` call pushes exactly the serialization of the mutated
state. -/
theorem C3_single_push_per_mutation_witness :
    effectiveMutation initialState (Op.gainChange 1) ∧
    (ensureIter 1 (applyOp initialState (Op.gainChange 1))).2 =
      [serializeSong (applyOp initialState (Op.gainChange 1))] ∧
    (ensureIter 1 (applyOp initialState (Op.gainChange 1))).1.dirty = false ∧
    (ensureIter 1 (applyOp initialState (Op.gainChange 1))).1.lastSongData =
      some (serializeSong (applyOp initialState (Op.gainChange 1))) := by
  have h : effectiveMutation initialState (Op.gainChange 1) := trivial
  exact ⟨h, (C3_single_push_per_mutation initialState (Op.gainChange 1) h 1 le_rfl).2⟩

/-! ## Claim C5: a failed push leaves the state untouched -/

/-- Claim C5.  If `ensureSongIsCurrent` attempts a push (its pushed-body list
is nonempty) and the network exchange fails, the resulting state is exactly
the entry state — tracks, configs, samples, snapshot and the `dirty` flag are
all unchanged — and the handler does not complete, so the failure cannot be
mistaken for a successful sync. -/
theorem C5_failed_push_state_unchanged (s : RollState)
    (h : (ensureSongIsCurrent s false).2.1 ≠ []) :
    (ensureSongIsCurrent s false).1 = s ∧ (ensureSongIsCurrent s false).2.2 = false := by
  by_cases hc : (s.dirty = false ∧ some (serializeSong s) = s.lastSongData)
  · exfalso
    apply h
    unfold ensureSongIsCurrent
    rw [if_pos hc]
  · unfold ensureSongIsCurrent
    rw [if_neg hc]
    exact ⟨rfl, rfl⟩

/-- Witness for Claim C5: after a gain change the state is dirty, a failing
push is attempted, and the state afterwards equals the dirty pre-push state. -/
theorem C5_failed_push_state_unchanged_witness :
    (ensureSongIsCurrent (handleTrackGainChange initialState 1) false).2.1 ≠ [] ∧
    (ensureSongIsCurrent (handleTrackGainChange initialState 1) false).1 =
      handleTrackGainChange initialState 1 ∧
    (ensureSongIsCurrent (handleTrackGainChange initialState 1) false).2.2 = false := by
  have h : (ensureSongIsCurrent (handleTrackGainChange initialState 1) false).2.1 ≠ [] := by
    decide
  exact ⟨h, C5_failed_push_state_unchanged (handleTrackGainChange initialState 1) h⟩

/-! ## Claim C4: the snapshot stored on AI-edit completion -/

/-- Claim C4, evaluated at a failing input.  `handleChat` on the empty initial
score with response `{Tracks: [trB], SynthConfigs: [cfgB]}` does replace the
score wholesale and clear `dirty`, but the snapshot it stores is the
serialization of the pre-edit (empty) state: the `JSON.stringify` of lines
330-334 runs in the render closure, where `tracks` and `synthConfigs` still
hold the pre-edit values, so the snapshot differs from the local
re-serialization of the post-replacement state that the claim requires. -/
theorem C4_snapshot_serializes_pre_edit_state :
    (handleChat initialState [trB] [cfgB]).tracks = [trB] ∧
    (handleChat initialState [trB] [cfgB]).synthConfigs = [cfgB] ∧
    (handleChat initialState [trB] [cfgB]).dirty = false ∧
    (handleChat initialState [trB] [cfgB]).lastSongData =
      some (serializeSong initialState) ∧
    (handleChat initialState [trB] [cfgB]).lastSongData ≠
      some (serializeSong (handleChat initialState [trB] [cfgB])) := by
  refine ⟨rfl, rfl, rfl, rfl, ?_⟩
  intro h
  have h2 : serializeSong initialState =
      serializeSong (handleChat initialState [trB] [cfgB]) := by
    have := congrArg (fun o => o.getD (serializeSong initialState))
      ((rfl : (handleChat initialState [trB] [cfgB]).lastSongData =
        some (serializeSong initialState)) ▸ h)
    simpa using this
  have h3 : (serializeSong initialState).Tracks =
      (serializeSong (handleChat initialState [trB] [cfgB])).Tracks :=
    congrArg SongData.Tracks h2
  revert h3
  decide

/-! ## Claim C6: malformed responses are adopted, not rejected -/

/-- Claim C6 counterexample.  A chat response whose single track references
`cfg_id = "no-such-cfg"` while its `SynthConfigs` list is empty is adopted
verbatim: after `handleChat` the local score holds a track whose config
reference resolves to nothing.  No detection or rejection occurs. -/
theorem C6_counterexample_dangling_cfg_adopted :
    (handleChat initialState [trGhost] []).tracks = [trGhost] ∧
    (handleChat initialState [trGhost] []).synthConfigs = [] ∧
    ∀ cfg ∈ (handleChat initialState [trGhost] []).synthConfigs,
      cfg.id ≠ trGhost.cfg_id := by
  refine ⟨rfl, rfl, ?_⟩
  intro cfg hcfg
  have : cfg ∈ ([] : List SynthConfig) := hcfg
  simp at this

/-- Claim C6, amended.  `handleChat` and `handleRevert` adopt the response
payload wholesale, with no structural validation: whatever `Tracks` and
`SynthConfigs` the response carries — malformed or not — become the local
score verbatim. -/
theorem C6_wholesale_adoption (s : RollState) (rT : List Track)
    (rC : List SynthConfig) (rS : Option (List (String × String))) :
    (handleChat s rT rC).tracks = rT ∧
    (handleChat s rT rC).synthConfigs = rC ∧
    (handleRevert s rT rC rS).tracks = rT ∧
    (handleRevert s rT rC rS).synthConfigs = rC :=
  ⟨rfl, rfl, rfl, rfl⟩

/-! ## Claim C7: envelope fields in the serialized configs -/

/-- A config id is referenced by at least one Synth-kind track. -/
def SynthReferenced (tracks : List Track) (cfgId : String) : Prop :=
  ∃ t ∈ tracks, t.cfg_id = cfgId ∧ t.type = TrackType.Track

/-- Claim C7 counterexample.  When one config is referenced both by a Synth
track (`trB`) and by a SamplePlayback track (`tWav`), the serialization emits
the full envelope shape for it, so a SamplePlayback track's config does carry
envelope/waveform fields in the serialized output. -/
theorem C7_counterexample_shared_config :
    tWav.type = TrackType.WavTrack ∧ tWav.cfg_id = cfgB.id ∧
    buildSynthConfigsObj 120 [cfgB] [trB, tWav] =
      [SerConfig.full "synth-2" 44100 120 (some (1/2)) (some "sine") (some (1/100))
        (some (1/20)) (some (4/5)) (some (1/20))] :=
  ⟨rfl, rfl, rfl⟩

/-- Claim C7, amended.  The serialization emits the full envelope/waveform
shape exactly for configs referenced by at least one Synth track, and the
minimal `id`/`sample_rate`/`bpm` shape for configs with no Synth-track
reference (in particular, for configs referenced only by SamplePlayback
tracks); a config shared between a Synth and a SamplePlayback track gets the
full shape. -/
theorem C7_config_field_shape (bpm : ℤ) (configs : List SynthConfig)
    (tracks : List Track) (i : ℕ) (cfg : SynthConfig)
    (h : configs.get? i = some cfg) :
    (SynthReferenced tracks cfg.id →
      (buildSynthConfigsObj bpm configs tracks).get? i =
        some (SerConfig.full cfg.id 44100 bpm cfg.volume cfg.waveform
          cfg.attack cfg.decay cfg.sustain cfg.release)) ∧
    (¬ SynthReferenced tracks cfg.id →
      (buildSynthConfigsObj bpm configs tracks).get? i =
        some (SerConfig.minimal cfg.id 44100 bpm)) := by
  have hany : (tracks.any fun t =>
      decide (t.cfg_id = cfg.id ∧ t.type = TrackType.Track)) = true ↔
      SynthReferenced tracks cfg.id := by
    rw [List.any_eq_true]
    simp [SynthReferenced]
  unfold buildSynthConfigsObj
  rw [List.get?_map, h]
  constructor
  · intro href
    rw [Option.map_some', if_pos (hany.mpr href)]
  · intro href
    rw [Option.map_some', if_neg (fun hc => href (hany.mp hc))]

/-- Witness for Claim C7, amended: config `cfgB` at index 0, referenced by the
Synth track `trB`, serializes to the full shape. -/
theorem C7_config_field_shape_witness :
    ([cfgB].get? 0 = some cfgB) ∧ SynthReferenced [trB] cfgB.id ∧
    (buildSynthConfigsObj 120 [cfgB] [trB]).get? 0 =
      some (SerConfig.full cfgB.id 44100 120 cfgB.volume cfgB.waveform
        cfgB.attack cfgB.decay cfgB.sustain cfgB.release) := by
  have href : SynthReferenced [trB] cfgB.id := ⟨trB, by simp, rfl, rfl⟩
  exact ⟨rfl, href, (C7_config_field_shape 120 [cfgB] [trB] 0 cfgB rfl).1 href⟩

/-! ## Claim C10: priority of the stored samples mapping -/

/-- Claim C10.  When the stored samples mapping is non-empty, every
serialization returns it verbatim as the `samples` field regardless of the
current tracks (so later sample-track edits are not reflected in pushes); no
operation other than `handleRevert` ever writes the stored mapping; and when
the stored mapping is empty the `samples` field is rebuilt from the current
tracks' file references. -/
theorem C10_samples_mapping_priority (s : RollState) (op : Op)
    (hs : s.samples ≠ []) (hop : ∀ rT rC rS, op ≠ Op.revert rT rC rS) :
    (∀ tracks' : List Track, buildSamplesObj s.samples tracks' = s.samples) ∧
    (serializeSong s).samples = s.samples ∧
    (∀ t : RollState, (applyOp t op).samples = t.samples) ∧
    (∀ tracks' : List Track, buildSamplesObj [] tracks' = samplesFromTracks tracks') := by
  have hbuild : ∀ tracks' : List Track, buildSamplesObj s.samples tracks' = s.samples := by
    intro tracks'
    unfold buildSamplesObj
    rw [if_pos (by cases hsam : s.samples with
      | nil => exact absurd hsam hs
      | cons a l => simp [hsam])]
  refine ⟨hbuild, hbuild s.tracks, ?_, fun _ => rfl⟩
  intro t
  cases op with
  | mouseDown p b btn =>
    show (handleNoteMouseDown t p b btn).samples = t.samples
    unfold handleNoteMouseDown
    split <;> rfl
  | mouseEnter p b =>
    show (handleNoteMouseEnter t p b).samples = t.samples
    unfold handleNoteMouseEnter
    split <;> rfl
  | mouseUp p b =>
    show (handleNoteMouseUp t p b).samples = t.samples
    unfold handleNoteMouseUp
    split
    · rfl
    · split <;> rfl
  | contextMenu p b =>
    show (handleNoteContextMenu t p b).samples = t.samples
    unfold handleNoteContextMenu
    split <;> rfl
  | selectTrack idx => rfl
  | removeTrack idx => rfl
  | addTrack nt =>
    show (handleAddTrack t nt).samples = t.samples
    unfold handleAddTrack
    split
    · rfl
    · split <;> rfl
  | paramChange c =>
    show (handleSynthParamChange t c).samples = t.samples
    unfold handleSynthParamChange
    split <;> rfl
  | gainChange v => rfl
  | bpmChange v => rfl
  | ensureSong ok =>
    show ((ensureSongIsCurrent t ok).1).samples = t.samples
    simp only [ensureSongIsCurrent]
    split
    · rfl
    · split <;> rfl
  | chat rT rC =>
    show (handleChat t rT rC).samples = t.samples
    simp only [handleChat, ensureSongIsCurrent]
    split <;> rfl
  | revert rT rC rS => exact absurd rfl (hop rT rC rS)

/-- Witness for Claim C10: with a non-empty stored mapping and a gain-change
operation, the serialized `samples` field is the stored mapping and the
operation leaves the stored mapping untouched. -/
theorem C10_samples_mapping_priority_witness :
    ({ initialState with samples := [("drums", "/tmp/kick.wav")] } : RollState).samples ≠ [] ∧
    (serializeSong { initialState with samples := [("drums", "/tmp/kick.wav")] }).samples =
      [("drums", "/tmp/kick.wav")] ∧
    (applyOp { initialState with samples := [("drums", "/tmp/kick.wav")] }
      (Op.gainChange 1)).samples = [("drums", "/tmp/kick.wav")] := by
  have hs : ({ initialState with samples := [("drums", "/tmp/kick.wav")] } : RollState).samples ≠ [] := by
    decide
  have h := C10_samples_mapping_priority
    { initialState with samples := [("drums", "/tmp/kick.wav")] } (Op.gainChange 1)
    hs (fun rT rC rS hop => Op.noConfusion hop)
  exact ⟨hs, h.2.1, h.2.2.1 _⟩

end DawAI
